import Mathlib

/-!
Verification of the foreman daily-report app (`src/app/page.tsx`).

The embedding models:
  * the `Entry` / `MaterialItem` data model;
  * `escapeHTML` and the PDF report renderer `renderReportHTML` /
    `renderAllReportsHTML` (exact template strings from the source);
  * the `generatePDF` pagination loop, filename computation and the
    container swap/restore control flow;
  * the JSON export (`exportJSON`) together with a model of the external
    `JSON.parse` builtin reading the serialized fields back;
  * the category-progress update and custom-category handlers.

JavaScript `Record<string, number>` objects are modelled as insertion-ordered
association lists, JS numbers occurring here (progress percentages) as `Int`,
and the rasterized/page geometry (JS doubles) as `ℚ`.  Date getters
(`getFullYear`/`getMonth`/`getDate`) on ISO strings are modelled by reading
the leading `YYYY-MM-DD` digits (a fixed-UTC environment; the spec's dates
are timezone-naive at day granularity).
-/

/-- One material request line, as in the `MaterialItem` type of the source. -/
structure MaterialItem where
  id : String
  name : String
  quantity : String
  neededBy : String
  notes : String
deriving DecidableEq

/-- One daily-report entry, as in the `Entry` type of the source.
`categoryProgress` is the insertion-ordered key/value list of the JS record. -/
structure Entry where
  id : String
  date : String
  site : String
  area : String
  categoryProgress : List (String × Int)
  weather : String
  obstacles : String
  notes : String
  manpower : String
  safetyIncidents : String
  materialsRequired : Bool
  materialItems : List MaterialItem
  photos : List String
deriving DecidableEq

/-- JS `a || b` on strings: the empty string is falsy. -/
def jsOr (a b : String) : String := if a = "" then b else a

/-- `Array.prototype.join("")`: concatenation of a list of strings. -/
def joinAll : List String → String
  | [] => ""
  | s :: rest => s ++ joinAll rest

/-- `Array.prototype.join(sep)`. -/
def joinSep (sep : String) : List String → String
  | [] => ""
  | [s] => s
  | s :: rest => s ++ sep ++ joinSep sep rest

/-- The replacement of one character under the source's `escapeHTML`
replace-callback: each of the five HTML-sensitive characters becomes its
entity, anything else stays itself. -/
def escapeChar (c : Char) : String :=
  if c = '&' then "&amp;"
  else if c = '<' then "&lt;"
  else if c = '>' then "&gt;"
  else if c = '"' then "&quot;"
  else if c = '\'' then "&#39;"
  else String.singleton c

/-- Source `escapeHTML` (page.tsx:730): global replace of `[&<>"']` by the
entity map.  (`str || ""` only guards against null/undefined, which the
typed model has no counterpart of.) -/
def escapeHTML (s : String) : String := joinAll (s.data.map escapeChar)

/-- Value of a decimal digit character, else `none`. -/
def digitVal (c : Char) : Option Nat :=
  if c.isDigit then some (c.toNat - 48) else none

/-- Model of `new Date(iso)` followed by `getFullYear()` /
`getMonth()+1` / `getDate()` in a fixed-UTC environment: read the leading
`YYYY-MM-DD` digits of the ISO string. -/
def parseYMD (s : String) : Option (Nat × Nat × Nat) :=
  match s.data with
  | y1 :: y2 :: y3 :: y4 :: h1 :: m1 :: m2 :: h2 :: d1 :: d2 :: _ =>
    if h1 = '-' && h2 = '-' then
      match digitVal y1, digitVal y2, digitVal y3, digitVal y4,
            digitVal m1, digitVal m2, digitVal d1, digitVal d2 with
      | some a, some b, some c, some d, some e, some f, some g, some h =>
        some (((a * 10 + b) * 10 + c) * 10 + d, e * 10 + f, g * 10 + h)
      | _, _, _, _, _, _, _, _ => none
    else none
  | _ => none

/-- `String(n).padStart(2, "0")` for the month/day numbers (< 100). -/
def pad2 (n : Nat) : String := if n < 10 then "0" ++ toString n else toString n

/-- The `${yyyy}-${mm}-${dd}` string the source computes from a date; an
unparsable date gives `NaN` components as `String(NaN)` would. -/
def ymdString (s : String) : String :=
  match parseYMD s with
  | some (y, m, d) => toString y ++ "-" ++ pad2 m ++ "-" ++ pad2 d
  | none => "NaN-NaN-NaN"

/-! ### Template segments of `renderReportHTML` (page.tsx:277-358)

Each literal below is the verbatim text of the corresponding template-literal
piece between two `${...}` interpolation slots. -/

def catRowSeg1 : String := "\n        <tr>\n          <td style='border:1px solid #999; padding:6px;'>"
def catRowSeg2 : String := "</td>\n          <td style='border:1px solid #999; padding:6px;'>"
def catRowSeg3 : String := "%</td>\n        </tr>"

/-- One row of the category-progress table: `escapeHTML(k)` and `${v}%`. -/
def catRowStr (k : String) (v : Int) : String :=
  catRowSeg1 ++ escapeHTML k ++ catRowSeg2 ++ toString v ++ catRowSeg3

/-- `catRows`: the mapped rows joined with `""`. -/
def catRows (cp : List (String × Int)) : String :=
  joinAll (cp.map fun kv => catRowStr kv.1 kv.2)

def matHeaderSeg : String :=
  "<table style='width:100%; border-collapse:collapse; font-size:12px;'>\n           <tr>\n             <th style='border:1px solid #999; padding:6px; text-align:left;'>Item</th>\n             <th style='border:1px solid #999; padding:6px; text-align:left;'>Qty</th>\n             <th style='border:1px solid #999; padding:6px; text-align:left;'>Needed By</th>\n             <th style='border:1px solid #999; padding:6px; text-align:left;'>Notes</th>\n           </tr>\n           "
def matFootSeg : String := "\n         </table>"
def matRowSeg1 : String := "\n             <tr>\n               <td style='border:1px solid #999; padding:6px;'>"
def matRowSeg2 : String := "</td>\n               <td style='border:1px solid #999; padding:6px;'>"
def matRowSeg3 : String := "</td>\n               <td style='border:1px solid #999; padding:6px;'>"
def matRowSeg4 : String := "</td>\n               <td style='border:1px solid #999; padding:6px;'>"
def matRowSeg5 : String := "</td>\n             </tr>"

/-- One materials row: name/quantity/notes escaped, `${m.neededBy || ""}` raw. -/
def matRowStr (m : MaterialItem) : String :=
  matRowSeg1 ++ escapeHTML m.name ++ matRowSeg2 ++ escapeHTML m.quantity ++
    matRowSeg3 ++ jsOr m.neededBy "" ++ matRowSeg4 ++ escapeHTML m.notes ++ matRowSeg5

/-- The placeholder emitted when the materials table is not rendered. -/
def noMaterialsDiv : String := "<div style='font-size:12px;'>No</div>"

/-- `matTable` (page.tsx:291-307): the table when
`e.materialsRequired && e.materialItems.length`, else the "No" div. -/
def matTable (e : Entry) : String :=
  if e.materialsRequired && !e.materialItems.isEmpty then
    matHeaderSeg ++ joinAll (e.materialItems.map matRowStr) ++ matFootSeg
  else noMaterialsDiv

def photoImgSeg1 : String := "<img src='"
def photoImgSeg2 : String := "' style='width:180px; height:120px; object-fit:cover; border:1px solid #ccc; border-radius:8px;'/>"

/-- One photo thumbnail: the source `p` is interpolated raw. -/
def photoImgStr (p : String) : String := photoImgSeg1 ++ p ++ photoImgSeg2

def photosHeadSeg : String :=
  "<div style=\"margin-top:12px;\">\n           <h3 style='font-size:14px; margin:0 0 6px;'>Photos</h3>\n           <div style='display:flex; flex-wrap:wrap; gap:8px;'>\n             "
def photosFootSeg : String := "\n           </div>\n         </div>"

/-- `photos` block (page.tsx:309-315): present only when the list is non-empty. -/
def photosBlock (ps : List String) : String :=
  if ps.isEmpty then "" else photosHeadSeg ++ joinAll (ps.map photoImgStr) ++ photosFootSeg

def reportSeg1 : String :=
  "\n      <div style=\"font-family: ui-sans-serif, system-ui; padding: 24px; width: 794px;\">\n        <h1 style=\"font-size: 20px; margin: 0 0 8px;\">Renovation Daily Report</h1>\n        <div style=\"font-size:12px; color:#444; margin-bottom:12px;\">Date: "
def reportSeg2 : String :=
  "</div>\n        <table style=\"width:100%; border-collapse: collapse; font-size: 12px; margin-bottom: 12px;\">\n          <tr>\n            <td style=\"border:1px solid #999; padding:6px; width:50%\"><strong>Site / Project</strong><br/>"
def reportSeg3 : String :=
  "</td>\n            <td style=\"border:1px solid #999; padding:6px; width:50%\"><strong>Area / Zone</strong><br/>"
def reportSeg4 : String :=
  "</td>\n          </tr>\n          <tr>\n            <td style=\"border:1px solid #999; padding:6px\"><strong>Weather</strong><br/>"
def reportSeg5 : String :=
  "</td>\n            <td style=\"border:1px solid #999; padding:6px\"><strong>Manpower</strong><br/>"
def reportSeg6 : String :=
  "</td>\n          </tr>\n          <tr>\n            <td style=\"border:1px solid #999; padding:6px\"><strong>Obstacles</strong><br/>"
def reportSeg7 : String :=
  "</td>\n            <td style=\"border:1px solid #999; padding:6px\"><strong>Safety Incidents</strong><br/>"
def reportSeg8 : String :=
  "</td>\n          </tr>\n          <tr>\n            <td colspan=\"2\" style=\"border:1px solid #999; padding:6px\"><strong>Notes</strong><br/>"
def reportSeg9 : String :=
  "</td>\n          </tr>\n        </table>\n\n        <div style=\"margin-top:8px;\">\n          <h3 style=\"font-size:14px; margin:0 0 6px;\">Category Progress</h3>\n          <table style='width:100%; border-collapse:collapse; font-size:12px;'>\n            <tr>\n              <th style='border:1px solid #999; padding:6px; text-align:left;'>Category</th>\n              <th style='border:1px solid #999; padding:6px; text-align:left;'>Progress</th>\n            </tr>\n            "
def reportSeg10 : String :=
  "\n          </table>\n        </div>\n\n        <div style=\"margin-top:8px;\">\n          <h3 style=\"font-size:14px; margin:0 0 6px;\">Materials Required</h3>\n          "
def reportSeg11 : String := "\n        </div>\n\n        "
def reportSeg12 : String := "\n      </div>\n    "

/-- Source `renderReportHTML` (page.tsx:277-358): the full report markup for
one entry, with every interpolation slot in source order. -/
def renderReportHTML (e : Entry) : String :=
  reportSeg1 ++ ymdString e.date ++
  reportSeg2 ++ escapeHTML e.site ++
  reportSeg3 ++ escapeHTML e.area ++
  reportSeg4 ++ escapeHTML e.weather ++
  reportSeg5 ++ escapeHTML e.manpower ++
  reportSeg6 ++ jsOr (escapeHTML e.obstacles) "-" ++
  reportSeg7 ++ jsOr (escapeHTML e.safetyIncidents) "None" ++
  reportSeg8 ++ jsOr (escapeHTML e.notes) "-" ++
  reportSeg9 ++ catRows e.categoryProgress ++
  reportSeg10 ++ matTable e ++
  reportSeg11 ++ photosBlock e.photos ++
  reportSeg12

/-- Source `renderAllReportsHTML` (page.tsx:360-362): per-entry reports joined
by a page-break div. -/
def renderAllReportsHTML (all : List Entry) : String :=
  joinSep "<div style='page-break-after:always'></div>" (all.map renderReportHTML)

/-! ### Substring and character-count observations on the rendered markup -/

/-- Does the first character list begin with the second? -/
def beginsWith : List Char → List Char → Bool
  | _, [] => true
  | [], _ :: _ => false
  | a :: as, b :: bs => a = b && beginsWith as bs

/-- Does the first character list contain the second as a contiguous block? -/
def containsSeq : List Char → List Char → Bool
  | [], pat => beginsWith [] pat
  | a :: t, pat => beginsWith (a :: t) pat || containsSeq t pat

/-- Substring test on strings (used to observe the rendered markup). -/
def containsStr (hay pat : String) : Bool := containsSeq hay.data pat.data

/-- Number of occurrences of one character in a string. -/
def countChar (c : Char) (s : String) : Nat := s.data.count c

/-! ### The `generatePDF` pagination loop (page.tsx:194-208)

Page geometry is exact rational arithmetic.  The loop state is the pair
`(remaining, y)` of the source; each iteration calls
`pdf.addImage(imgData, "PNG", 0, y ? 0 : 0, imgWidth, imgHeight)`, subtracts
one page height from `remaining`, and calls `pdf.addPage()` whenever
`remaining` is still positive. -/

/-- The four placement arguments of one `pdf.addImage` call:
x, y, width, height. -/
structure Placement where
  x : ℚ
  y : ℚ
  w : ℚ
  h : ℚ
deriving DecidableEq

/-- The `while (remaining > 0)` loop of `generatePDF`: returns the list of
image placements (in call order) and the number of `pdf.addPage()` calls.
The source's `y ? 0 : 0` conditional is kept verbatim.  The loop only
terminates for a positive page height (jsPDF's A4 height), so that bound is
carried as a hypothesis. -/
def pdfLoop (p iw ih : ℚ) (hp : 0 < p) (remaining y : ℚ) : List Placement × ℕ :=
  if h : 0 < remaining then
    let rest := pdfLoop p iw ih hp (remaining - p) (y + p)
    (⟨0, if y = 0 then 0 else 0, iw, ih⟩ :: rest.1,
      (if 0 < remaining - p then 1 else 0) + rest.2)
  else ([], 0)
termination_by (⌈remaining / p⌉).toNat
decreasing_by
  have h1 : (remaining - p) / p = remaining / p - 1 := by
    field_simp
  have h2 : (0 : ℤ) < ⌈remaining / p⌉ := Int.ceil_pos.mpr (div_pos h hp)
  have h3 : ⌈(remaining - p) / p⌉ = ⌈remaining / p⌉ - 1 := by
    rw [h1]
    exact_mod_cast Int.ceil_sub_int (remaining / p) 1
  omega

/-- Number of pages in the produced document: jsPDF starts with one page and
each `addPage` call adds one. -/
def pageCount (imgHeight pageHeight : ℚ) (hp : 0 < pageHeight) : ℕ :=
  1 + (pdfLoop pageHeight 0 imgHeight hp imgHeight 0).2

/-- The image placements of `generatePDF` for a canvas of the given size:
`imgWidth = pageWidth` and `imgHeight = canvas.height * imgWidth / canvas.width`
(page.tsx:197-198). -/
def pdfPlacements (canvasW canvasH pageW pageH : ℚ) (hp : 0 < pageH) : List Placement :=
  (pdfLoop pageH pageW (canvasH * pageW / canvasW) hp (canvasH * pageW / canvasW) 0).1

/-! ### Export filename and the container swap (page.tsx:182-221) -/

/-- The filename `generatePDF` saves under (page.tsx:210-217): the entry's
date (single) or the current date (batch), with `entry.site || "site"`. -/
def pdfFilename (entry? : Option Entry) (now : Nat × Nat × Nat) : String :=
  match entry? with
  | some e =>
    "Daily-Report_" ++ ymdString e.date ++ "_" ++ jsOr e.site "site" ++ ".pdf"
  | none =>
    "Daily-Reports_" ++ (toString now.1 ++ "-" ++ pad2 now.2.1 ++ "-" ++ pad2 now.2.2) ++ ".pdf"

/-- Observable outcome of one `generatePDF` invocation. -/
inductive PDFOutcome where
  | aborted
  | failed
  | saved (filename : String)
deriving DecidableEq

/-- The markup swapped into the scratch node (page.tsx:187-188): one entry's
report, or all entries joined with page breaks. -/
def renderTarget (entry? : Option Entry) (entries : List Entry) : String :=
  match entry? with
  | some e => renderReportHTML e
  | none => renderAllReportsHTML entries

/-- Control flow of `generatePDF` (page.tsx:182-221) as it affects the scratch
container.  `container` is the `reportRef` node's `innerHTML` (or `none` when
the node is not mounted); `rasterize` models the awaited `html2canvas` call,
which either yields a canvas size or throws.  The source restores
`node.innerHTML = original` only as the last statement, after `pdf.save`;
an exception from `html2canvas` propagates out of the async function with the
swapped-in markup still in place. -/
def generatePDFRun (container : Option String) (entry? : Option Entry)
    (entries : List Entry) (rasterize : String → Except Unit (ℚ × ℚ))
    (now : Nat × Nat × Nat) : Option String × PDFOutcome :=
  match container with
  | none => (none, .aborted)
  | some _original =>
    match rasterize (renderTarget entry? entries) with
    | .error _ => (some (renderTarget entry? entries), .failed)
    | .ok _ => (some _original, .saved (pdfFilename entry? now))

/-! ### JSON export (page.tsx:167-179)

`exportJSON` serializes the entry list with `JSON.stringify(entries, null, 2)`;
the saved list is later read back with `JSON.parse(raw) as Entry[]`
(page.tsx:57-58).  The JSON value tree is modelled explicitly; the decoder
models the external `JSON.parse` builtin reading each serialized field back. -/

/-- JSON values produced/consumed by the export (no floats or nulls occur). -/
inductive Json where
  | str : String → Json
  | num : Int → Json
  | jbool : Bool → Json
  | arr : List Json → Json
  | obj : List (String × Json) → Json

def Json.asStr : Json → Option String
  | .str s => some s
  | _ => none

def Json.asNum : Json → Option Int
  | .num n => some n
  | _ => none

def Json.asBool : Json → Option Bool
  | .jbool b => some b
  | _ => none

/-- Decode a JSON array elementwise. -/
def decodeList (f : Json → Option α) : List Json → Option (List α)
  | [] => some []
  | j :: js => do
    let a ← f j
    let as ← decodeList f js
    pure (a :: as)

/-- `JSON.stringify` image of one material item (field order of the object). -/
def encodeMaterialItem (m : MaterialItem) : Json :=
  .obj [("id", .str m.id), ("name", .str m.name), ("quantity", .str m.quantity),
        ("neededBy", .str m.neededBy), ("notes", .str m.notes)]

/-- `JSON.stringify` image of one entry (field order of the `Entry` object). -/
def encodeEntry (e : Entry) : Json :=
  .obj [("id", .str e.id), ("date", .str e.date), ("site", .str e.site),
        ("area", .str e.area),
        ("categoryProgress", .obj (e.categoryProgress.map fun kv => (kv.1, .num kv.2))),
        ("weather", .str e.weather), ("obstacles", .str e.obstacles),
        ("notes", .str e.notes), ("manpower", .str e.manpower),
        ("safetyIncidents", .str e.safetyIncidents),
        ("materialsRequired", .jbool e.materialsRequired),
        ("materialItems", .arr (e.materialItems.map encodeMaterialItem)),
        ("photos", .arr (e.photos.map Json.str))]

/-- The JSON value `exportJSON` serializes: the array of all entries. -/
def exportJSONValue (entries : List Entry) : Json := .arr (entries.map encodeEntry)

/-- Reading one material item back from parsed JSON. -/
def decodeMaterialItem (j : Json) : Option MaterialItem :=
  match j with
  | .obj fs => do
    let id ← (fs.lookup "id").bind Json.asStr
    let name ← (fs.lookup "name").bind Json.asStr
    let quantity ← (fs.lookup "quantity").bind Json.asStr
    let neededBy ← (fs.lookup "neededBy").bind Json.asStr
    let notes ← (fs.lookup "notes").bind Json.asStr
    pure ⟨id, name, quantity, neededBy, notes⟩
  | _ => none

/-- Reading the category-progress record back, preserving key order. -/
def decodeCPFields : List (String × Json) → Option (List (String × Int))
  | [] => some []
  | (k, j) :: rest => do
    let n ← j.asNum
    let ns ← decodeCPFields rest
    pure ((k, n) :: ns)

/-- Reading one entry back from parsed JSON. -/
def decodeEntry (j : Json) : Option Entry :=
  match j with
  | .obj fs => do
    let id ← (fs.lookup "id").bind Json.asStr
    let date ← (fs.lookup "date").bind Json.asStr
    let site ← (fs.lookup "site").bind Json.asStr
    let area ← (fs.lookup "area").bind Json.asStr
    let cp ← match fs.lookup "categoryProgress" with
      | some (.obj cfs) => decodeCPFields cfs
      | _ => none
    let weather ← (fs.lookup "weather").bind Json.asStr
    let obstacles ← (fs.lookup "obstacles").bind Json.asStr
    let notes ← (fs.lookup "notes").bind Json.asStr
    let manpower ← (fs.lookup "manpower").bind Json.asStr
    let safetyIncidents ← (fs.lookup "safetyIncidents").bind Json.asStr
    let materialsRequired ← (fs.lookup "materialsRequired").bind Json.asBool
    let materialItems ← match fs.lookup "materialItems" with
      | some (.arr js) => decodeList decodeMaterialItem js
      | _ => none
    let photos ← match fs.lookup "photos" with
      | some (.arr js) => decodeList Json.asStr js
      | _ => none
    pure ⟨id, date, site, area, cp, weather, obstacles, notes, manpower,
          safetyIncidents, materialsRequired, materialItems, photos⟩
  | _ => none

/-- `JSON.parse` on the exported document: an array of entries. -/
def parseEntries (j : Json) : Option (List Entry) :=
  match j with
  | .arr js => decodeList decodeEntry js
  | _ => none

/-! ### Form handlers on `categoryProgress` -/

/-- The progress-slider `onChange` handler (page.tsx:446-453):
`{ ...s.categoryProgress, [cat]: Number(e.target.value) }` — an existing key
keeps its position with the new value, a new key is appended. -/
def setCategoryProgress (cp : List (String × Int)) (cat : String) (v : Int) :
    List (String × Int) :=
  if (cp.lookup cat).isSome then
    cp.map fun kv => if kv.1 = cat then (cat, v) else kv
  else cp ++ [(cat, v)]

/-- The property names every plain JS object inherits from
`Object.prototype` (including the Annex B accessors present in browsers):
reading any of them with bracket access yields a function or object, never
`undefined`. -/
def objectProtoKeys : List String :=
  ["constructor", "hasOwnProperty", "isPrototypeOf", "propertyIsEnumerable",
   "toLocaleString", "toString", "valueOf", "__proto__",
   "__defineGetter__", "__defineSetter__", "__lookupGetter__", "__lookupSetter__"]

/-- JS `cp[name] !== undefined` on a plain object such as `categoryProgress`
(built by `Object.fromEntries` / spreads / `JSON.parse`): bracket access
finds own keys and walks the prototype chain, so it is also defined for every
`Object.prototype` property name. -/
def jsIndexDefined (cp : List (String × Int)) (name : String) : Bool :=
  (cp.lookup name).isSome || objectProtoKeys.contains name

/-- The `AddCategory` `onAdd` handler (page.tsx:429-437): a falsy (empty) name
is ignored; when `s.categoryProgress[name] !== undefined` — the name is an
own key or an inherited `Object.prototype` property name — the record is left
untouched; otherwise `{ ...s.categoryProgress, [name]: 0 }` appends the new
key mapped to 0. -/
def addCategory (cp : List (String × Int)) (name : String) : List (String × Int) :=
  if name = "" then cp
  else if jsIndexDefined cp name then cp
  else cp ++ [(name, 0)]

/-! ### Claim-side auxiliaries and concrete inputs -/

/-- The four markup-structural characters among the five HTML-sensitive ones
(escaping turns `&` into `&amp;`, which itself contains `&`, so `&` is
observed through the entity lemma instead of through counting). -/
def isStructuralChar (c : Char) : Prop :=
  c = '<' ∨ c = '>' ∨ c = '"' ∨ c = '\''

instance (c : Char) : Decidable (isStructuralChar c) := by
  unfold isStructuralChar; infer_instance

/-- Blank the three escaped free-text fields of a material item, keeping
`neededBy` (which the renderer inserts raw). -/
def stripItem (m : MaterialItem) : MaterialItem :=
  { m with name := "", quantity := "", notes := "" }

/-- Claim-side definition: blank exactly the free-text fields that the
renderer passes through `escapeHTML` (site, area, weather, manpower,
obstacles, safetyIncidents, notes, category names, material name/quantity/
notes), keeping everything else — notably `neededBy`, the photo sources and
all non-text data.  The amended C1 claim is that the structural characters of
the rendered markup are unaffected by this blanking. -/
def blankEscapedFields (e : Entry) : Entry :=
  { e with
    site := "",
    area := "",
    weather := "",
    manpower := "",
    obstacles := "",
    safetyIncidents := "",
    notes := "",
    categoryProgress := e.categoryProgress.map fun kv => ("", kv.2),
    materialItems := e.materialItems.map stripItem }

/-- A representative saved entry (site and date of the spec's example). -/
def sampleEntry : Entry :=
  { id := "entry_s1", date := "2024-03-05T00:00:00.000Z",
    site := "Prime 11 Unit 213", area := "Living Room",
    categoryProgress := [("Demolition", 80)], weather := "Clear",
    obstacles := "", notes := "", manpower := "6 workers",
    safetyIncidents := "None", materialsRequired := false,
    materialItems := [], photos := [] }

/-- Concrete entry whose material `neededBy` and photo source carry raw
markup: the renderer inserts both verbatim. -/
def entryRawNeededBy : Entry :=
  { id := "entry_a", date := "2024-03-05T00:00:00.000Z", site := "", area := "",
    categoryProgress := [], weather := "", obstacles := "", notes := "",
    manpower := "", safetyIncidents := "", materialsRequired := true,
    materialItems := [{ id := "mat_a", name := "", quantity := "",
                        neededBy := "<b>", notes := "" }],
    photos := ["<i>"] }

/-- Concrete entry with an empty site, exercising the `entry.site || "site"`
fallback of the filename computation. -/
def entryEmptySite : Entry :=
  { sampleEntry with site := "" }

/-! ## Helper lemmas -/

theorem countChar_append (c : Char) (a b : String) :
    countChar c (a ++ b) = countChar c a + countChar c b := by
  simp [countChar, String.data_append, List.count_append]

theorem countChar_str_singleton (c d : Char) (h : d ≠ c) :
    countChar c (String.singleton d) = 0 := by
  simp [countChar, String.singleton, List.count_cons]
  exact fun hcd => h hcd

theorem countChar_escapeChar (c d : Char) (hc : isStructuralChar c) :
    countChar c (escapeChar d) = 0 := by
  rcases hc with h | h | h | h <;> subst h <;> unfold escapeChar <;>
    split_ifs <;> first
      | decide
      | exact countChar_str_singleton _ _ (by assumption)

theorem countChar_escapeHTML (c : Char) (hc : isStructuralChar c) (s : String) :
    countChar c (escapeHTML s) = 0 := by
  unfold escapeHTML
  generalize s.data = l
  induction l with
  | nil => rfl
  | cons d t ih =>
    simp only [List.map_cons, joinAll]
    rw [countChar_append, countChar_escapeChar c d hc, ih]

theorem countChar_jsOr_dash (c : Char) (hc : isStructuralChar c) (s : String) :
    countChar c (jsOr (escapeHTML s) "-") = 0 := by
  unfold jsOr
  split
  · rcases hc with h | h | h | h <;> subst h <;> decide
  · exact countChar_escapeHTML c hc s

theorem countChar_jsOr_noneLit (c : Char) (hc : isStructuralChar c) (s : String) :
    countChar c (jsOr (escapeHTML s) "None") = 0 := by
  unfold jsOr
  split
  · rcases hc with h | h | h | h <;> subst h <;> decide
  · exact countChar_escapeHTML c hc s

theorem catRows_cons (kv : String × Int) (rest : List (String × Int)) :
    catRows (kv :: rest) = catRowStr kv.1 kv.2 ++ catRows rest := rfl

theorem joinAll_cons (s : String) (rest : List String) :
    joinAll (s :: rest) = s ++ joinAll rest := rfl

theorem isEmpty_map_eq {α β : Type} (f : α → β) (l : List α) :
    (l.map f).isEmpty = l.isEmpty := by
  cases l <;> rfl

theorem countChar_catRows_blank (c : Char) (hc : isStructuralChar c) :
    ∀ cp : List (String × Int),
      countChar c (catRows (cp.map fun kv => ("", kv.2))) = countChar c (catRows cp) := by
  intro cp
  induction cp with
  | nil => rfl
  | cons kv rest ih =>
    rw [List.map_cons, catRows_cons, catRows_cons]
    simp only [countChar_append, ih]
    unfold catRowStr
    simp only [countChar_append, countChar_escapeHTML c hc]

theorem countChar_matRows_blank (c : Char) (hc : isStructuralChar c) :
    ∀ mi : List MaterialItem,
      countChar c (joinAll ((mi.map stripItem).map matRowStr)) =
        countChar c (joinAll (mi.map matRowStr)) := by
  intro mi
  induction mi with
  | nil => rfl
  | cons m rest ih =>
    rw [List.map_cons, List.map_cons, List.map_cons, joinAll_cons, joinAll_cons]
    simp only [countChar_append, ih]
    unfold matRowStr stripItem
    simp only [countChar_append, countChar_escapeHTML c hc]

theorem countChar_matTable_blank (c : Char) (hc : isStructuralChar c) (e : Entry) :
    countChar c (matTable (blankEscapedFields e)) = countChar c (matTable e) := by
  obtain ⟨i, dt, st, ar, cp, w, ob, no, mp, si, mr, mi, ph⟩ := e
  simp only [blankEscapedFields, matTable]
  rw [isEmpty_map_eq]
  split
  · simp only [countChar_append]
    rw [countChar_matRows_blank c hc]
  · rfl

theorem blank_date_eq (e : Entry) : (blankEscapedFields e).date = e.date := by
  obtain ⟨i, dt, st, ar, cp, w, ob, no, mp, si, mr, mi, ph⟩ := e
  rfl

theorem blank_cp_eq (e : Entry) :
    (blankEscapedFields e).categoryProgress = e.categoryProgress.map fun kv => ("", kv.2) := by
  obtain ⟨i, dt, st, ar, cp, w, ob, no, mp, si, mr, mi, ph⟩ := e
  rfl

theorem blank_photos_eq (e : Entry) : (blankEscapedFields e).photos = e.photos := by
  obtain ⟨i, dt, st, ar, cp, w, ob, no, mp, si, mr, mi, ph⟩ := e
  rfl

theorem countChar_render (c : Char) (hc : isStructuralChar c) (e : Entry) :
    countChar c (renderReportHTML e) =
      countChar c (ymdString e.date) + countChar c (catRows e.categoryProgress) +
      countChar c (matTable e) + countChar c (photosBlock e.photos) +
      (countChar c reportSeg1 + countChar c reportSeg2 + countChar c reportSeg3 +
       countChar c reportSeg4 + countChar c reportSeg5 + countChar c reportSeg6 +
       countChar c reportSeg7 + countChar c reportSeg8 + countChar c reportSeg9 +
       countChar c reportSeg10 + countChar c reportSeg11 + countChar c reportSeg12) := by
  simp only [renderReportHTML, countChar_append, countChar_escapeHTML c hc,
    countChar_jsOr_dash c hc, countChar_jsOr_noneLit c hc]
  omega

theorem ceil_div_sub_one (r p : ℚ) (hp : 0 < p) : ⌈(r - p) / p⌉ = ⌈r / p⌉ - 1 := by
  have h1 : (r - p) / p = r / p - 1 := by field_simp
  rw [h1]
  exact_mod_cast Int.ceil_sub_int (r / p) 1

theorem pdfLoop_snd (p iw ih : ℚ) (hp : 0 < p) (r y : ℚ) :
    (pdfLoop p iw ih hp r y).2 = (⌈r / p⌉).toNat - 1 := by
  induction r, y using pdfLoop.induct p iw ih hp with
  | case1 r y h ih2 =>
    rw [pdfLoop]
    simp only [dif_pos h]
    rw [ih2, ceil_div_sub_one r p hp]
    have hpos : (0 : ℤ) < ⌈r / p⌉ := Int.ceil_pos.mpr (div_pos h hp)
    by_cases h2 : 0 < r - p
    · have h3 : (0 : ℤ) < ⌈(r - p) / p⌉ := Int.ceil_pos.mpr (div_pos h2 hp)
      rw [ceil_div_sub_one r p hp] at h3
      simp only [if_pos h2]
      omega
    · have h4 : ⌈r / p⌉ ≤ 1 := by
        rw [show (1 : ℤ) = ⌈(1 : ℚ)⌉ by norm_num]
        apply Int.ceil_le_ceil
        rw [div_le_one hp]
        linarith [not_lt.mp h2]
      simp only [if_neg h2]
      omega
  | case2 r y h =>
    rw [pdfLoop]
    simp only [dif_neg h]
    have h5 : ⌈r / p⌉ ≤ 0 := by
      rw [show (0 : ℤ) = ⌈(0 : ℚ)⌉ by norm_num]
      apply Int.ceil_le_ceil
      exact div_nonpos_iff.mpr (Or.inr ⟨not_lt.mp h, hp.le⟩)
    omega

theorem pdfLoop_mem_fst (p iw ih : ℚ) (hp : 0 < p) (r y : ℚ) :
    ∀ pl ∈ (pdfLoop p iw ih hp r y).1, pl = ⟨0, 0, iw, ih⟩ := by
  induction r, y using pdfLoop.induct p iw ih hp with
  | case1 r y h ih2 =>
    rw [pdfLoop]
    simp only [dif_pos h]
    intro pl hpl
    rcases List.mem_cons.mp hpl with h1 | h1
    · rw [h1]; simp [ite_self]
    · exact ih2 pl h1
  | case2 r y h =>
    rw [pdfLoop]
    simp [h]

/-! ## Claim theorems -/

set_option maxRecDepth 100000

/-- C3: for rasterized image height `h ≥ 0` and page height `p > 0`, the
`generatePDF` pagination loop emits exactly `max 1 ⌈h / p⌉` pages; in
particular exactly 1 page when `0 < h ≤ p` (including `h = p`), at least 2
pages whenever `h > p`, and exactly 1 page when `h = 0`. -/
theorem pagination_page_count (h p : ℚ) (hp : 0 < p) (hh : 0 ≤ h) :
    pageCount h p hp = max 1 (⌈h / p⌉).toNat ∧
    (0 < h → h ≤ p → pageCount h p hp = 1) ∧
    (p < h → 2 ≤ pageCount h p hp) ∧
    (h = 0 → pageCount h p hp = 1) := by
  have hsnd := pdfLoop_snd p 0 h hp h 0
  have hmain : pageCount h p hp = max 1 (⌈h / p⌉).toNat := by
    unfold pageCount
    rw [hsnd]
    rcases eq_or_lt_of_le hh with h0 | h0
    · rw [← h0]
      simp
    · have hlo : (0 : ℤ) < ⌈h / p⌉ := Int.ceil_pos.mpr (div_pos h0 hp)
      omega
  refine ⟨hmain, ?_, ?_, ?_⟩
  · intro h1 h2
    rw [hmain]
    have hup : ⌈h / p⌉ ≤ 1 := by
      rw [show (1 : ℤ) = ⌈(1 : ℚ)⌉ by norm_num]
      exact Int.ceil_le_ceil ((div_le_one hp).mpr h2)
    have hlo : (0 : ℤ) < ⌈h / p⌉ := Int.ceil_pos.mpr (div_pos h1 hp)
    omega
  · intro h1
    rw [hmain]
    have hlt : (1 : ℤ) < ⌈h / p⌉ := by
      apply Int.lt_ceil.mpr
      push_cast
      exact (one_lt_div hp).mpr h1
    omega
  · intro h1
    subst h1
    rw [hmain]
    simp

/-- Witness for C3: an image of height 3 on pages of height 2 produces 2
pages. -/
theorem pagination_page_count_witness : pageCount 3 2 (by norm_num) = 2 := by
  have h := (pagination_page_count 3 2 (by norm_num) (by norm_num)).1
  rw [h]
  rw [show ⌈(3 : ℚ) / 2⌉ = 2 by rw [Int.ceil_eq_iff]; norm_num]
  rfl

/-- C4: every `addImage` call of the pagination loop places the entire
rasterized image at x = 0, vertical offset 0, full page width and full scaled
image height — identically on every page, with no per-page cropping or
negative offset. -/
theorem pagination_places_full_image (cw ch pw ph : ℚ) (hp : 0 < ph) :
    ∀ pl ∈ pdfPlacements cw ch pw ph hp, pl = ⟨0, 0, pw, ch * pw / cw⟩ := by
  intro pl hpl
  exact pdfLoop_mem_fst ph pw (ch * pw / cw) hp (ch * pw / cw) 0 pl hpl

/-- Witness for C4: a concrete placement of the loop on a 1×1 canvas with
page height 2 equals the full-image placement. -/
theorem pagination_places_full_image_witness :
    (Placement.mk 0 0 1 1) = ⟨0, 0, 1, 1 * 1 / 1⟩ := by
  apply pagination_places_full_image 1 1 1 2 (by norm_num)
  rw [pdfPlacements, pdfLoop]
  norm_num

/-- C5 (amended): on every exit path on which the rasterizer does not throw —
successful save, or abort because the render target is unavailable — the
scratch container's contents equal its contents before the swap.  (On the
rasterizer-failure path the swapped-in markup is left in place.) -/
theorem generatePDF_restores_container (container : Option String)
    (entry? : Option Entry) (entries : List Entry)
    (rasterize : String → Except Unit (ℚ × ℚ)) (now : Nat × Nat × Nat)
    (h : (generatePDFRun container entry? entries rasterize now).2 ≠ PDFOutcome.failed) :
    (generatePDFRun container entry? entries rasterize now).1 = container := by
  cases container with
  | none => rfl
  | some orig =>
    unfold generatePDFRun at h ⊢
    revert h
    cases rasterize (renderTarget entry? entries) with
    | error u => intro h; exact absurd rfl h
    | ok c => intro h; rfl

/-- Witness for C5: a successful batch export over an empty list restores the
original container contents. -/
theorem generatePDF_restores_container_witness :
    (generatePDFRun (some "ORIGINAL") none [] (fun _ => Except.ok (1, 1)) (2024, 3, 5)).1
      = some "ORIGINAL" :=
  generatePDF_restores_container (some "ORIGINAL") none [] (fun _ => Except.ok (1, 1))
    (2024, 3, 5) (by decide)

/-- Counterexample for C5 as stated: when the rasterizer throws, the restore
statement never runs and the container is left holding the swapped-in report
markup, not its original contents. -/
theorem generatePDF_failure_keeps_swap_cx :
    (generatePDFRun (some "ORIGINAL") (some sampleEntry) [] (fun _ => Except.error ())
      (2024, 3, 5)).1 ≠ some "ORIGINAL" := by
  decide

/-- C6 (amended): a single-entry export is named
`Daily-Report_<YYYY-MM-DD>_<site>.pdf` from the entry's date and site, with
the literal `"site"` substituted when the entry's site is empty; a batch
export is named `Daily-Reports_<YYYY-MM-DD>.pdf` from the current date. -/
theorem pdf_filename_format (e : Entry) (y m d : Nat) (now : Nat × Nat × Nat)
    (hdate : parseYMD e.date = some (y, m, d)) :
    pdfFilename (some e) now =
      "Daily-Report_" ++ toString y ++ "-" ++ pad2 m ++ "-" ++ pad2 d ++ "_" ++
        (if e.site = "" then "site" else e.site) ++ ".pdf" ∧
    pdfFilename none now =
      "Daily-Reports_" ++ toString now.1 ++ "-" ++ pad2 now.2.1 ++ "-" ++ pad2 now.2.2
        ++ ".pdf" := by
  constructor
  · simp [pdfFilename, ymdString, hdate, jsOr, String.append_assoc]
  · simp [pdfFilename, String.append_assoc]

/-- Witness for C6: the spec's example — entry dated 2024-03-05 for site
"Prime 11 Unit 213". -/
theorem pdf_filename_format_witness :
    pdfFilename (some sampleEntry) (2025, 1, 2) =
      "Daily-Report_2024-03-05_Prime 11 Unit 213.pdf" := by
  have h := (pdf_filename_format sampleEntry 2024 3 5 (2025, 1, 2) (by decide)).1
  rw [h]
  decide

/-- Counterexample for C6 as stated: an entry with an empty site is saved as
`..._site.pdf` (the `entry.site || "site"` fallback), not `..._.pdf` as the
`<site>` pattern would give. -/
theorem pdf_filename_empty_site_cx :
    pdfFilename (some entryEmptySite) (2024, 3, 5) = "Daily-Report_2024-03-05_site.pdf" ∧
    "Daily-Report_2024-03-05_site.pdf" ≠ "Daily-Report_2024-03-05_.pdf" :=
  ⟨by decide, by decide⟩

/-- C8 (amended): the slider handler stores the requested value unchanged, so
whenever the requested value lies in [0,100] — as the range control with
`min=0`/`max=100` supplies — every stored `categoryProgress` value remains in
[0,100].  The handler itself performs no clamping. -/
theorem progress_update_in_range (cp : List (String × Int)) (cat : String) (v : Int)
    (hinv : ∀ kv ∈ cp, 0 ≤ kv.2 ∧ kv.2 ≤ 100) (h0 : 0 ≤ v) (h100 : v ≤ 100) :
    ∀ kv ∈ setCategoryProgress cp cat v, 0 ≤ kv.2 ∧ kv.2 ≤ 100 := by
  intro kv hkv
  unfold setCategoryProgress at hkv
  split at hkv
  · rcases List.mem_map.mp hkv with ⟨kv0, hkv0, heq⟩
    by_cases hk : kv0.1 = cat
    · rw [if_pos hk] at heq
      rw [← heq]
      exact ⟨h0, h100⟩
    · rw [if_neg hk] at heq
      rw [← heq]
      exact hinv kv0 hkv0
  · rcases List.mem_append.mp hkv with h1 | h1
    · exact hinv kv h1
    · rw [List.mem_singleton.mp h1]
      exact ⟨h0, h100⟩

/-- Witness for C8: updating "Demolition" from 50 to 70 keeps every value in
range. -/
theorem progress_update_in_range_witness :
    0 ≤ (("Demolition", (70 : Int))).2 ∧ (("Demolition", (70 : Int))).2 ≤ 100 :=
  progress_update_in_range [("Demolition", 50)] "Demolition" 70 (by decide) (by decide)
    (by decide) ("Demolition", 70) (by decide)

/-- Counterexample for C8 as stated: requesting -5 stores -5 (below 0), not
the clamped 0 — the update handler does not clamp. -/
theorem progress_update_no_clamp_cx :
    (setCategoryProgress [("Demolition", 0)] "Demolition" (-5)).lookup "Demolition"
      = some (-5) ∧ ((-5 : Int) < 0) :=
  ⟨by decide, by decide⟩

/-- C9: rendering is a pure function of the entry — two entries that agree on
every field render to byte-identical markup. -/
theorem render_deterministic (e₁ e₂ : Entry)
    (h1 : e₁.id = e₂.id) (h2 : e₁.date = e₂.date) (h3 : e₁.site = e₂.site)
    (h4 : e₁.area = e₂.area) (h5 : e₁.categoryProgress = e₂.categoryProgress)
    (h6 : e₁.weather = e₂.weather) (h7 : e₁.obstacles = e₂.obstacles)
    (h8 : e₁.notes = e₂.notes) (h9 : e₁.manpower = e₂.manpower)
    (h10 : e₁.safetyIncidents = e₂.safetyIncidents)
    (h11 : e₁.materialsRequired = e₂.materialsRequired)
    (h12 : e₁.materialItems = e₂.materialItems) (h13 : e₁.photos = e₂.photos) :
    renderReportHTML e₁ = renderReportHTML e₂ := by
  have he : e₁ = e₂ := by
    cases e₁
    cases e₂
    simp only at h1 h2 h3 h4 h5 h6 h7 h8 h9 h10 h11 h12 h13
    subst h1 h2 h3 h4 h5 h6 h7 h8 h9 h10 h11 h12 h13
    rfl
  rw [he]

/-- Witness for C9: rendering the sample entry twice gives identical output. -/
theorem render_deterministic_witness :
    renderReportHTML sampleEntry = renderReportHTML sampleEntry :=
  render_deterministic sampleEntry sampleEntry rfl rfl rfl rfl rfl rfl rfl rfl rfl rfl
    rfl rfl rfl

/-- C10 (amended): for a non-empty category name, the add-category handler
leaves `categoryProgress` entirely unchanged when the name is already a key
(never resetting its percentage); it also leaves the record unchanged when
the name is an inherited `Object.prototype` property name (the guard
`cp[name] !== undefined` walks the prototype chain); only when the name is
neither does it append the name mapped to 0 after all existing keys, leaving
every existing key, value and position unchanged. -/
theorem add_category_frame (cp : List (String × Int)) (name : String) (hn : name ≠ "") :
    ((cp.lookup name).isSome = true → addCategory cp name = cp) ∧
    (objectProtoKeys.contains name = true → addCategory cp name = cp) ∧
    (cp.lookup name = none → objectProtoKeys.contains name = false →
      addCategory cp name = cp ++ [(name, 0)]) := by
  refine ⟨?_, ?_, ?_⟩
  · intro h
    unfold addCategory
    rw [if_neg hn, if_pos (by simp [jsIndexDefined, h])]
  · intro h
    have h' : name ∈ objectProtoKeys := by simpa using h
    unfold addCategory
    rw [if_neg hn, if_pos (by simp [jsIndexDefined]; exact Or.inr h')]
  · intro h1 h2
    have h2' : name ∉ objectProtoKeys := by simpa using h2
    unfold addCategory
    rw [if_neg hn, if_neg (by simp [jsIndexDefined, h1, h2'])]

/-- Witness for C10: adding a fresh "Electrical" category appends it at 0 and
keeps "Demolition" at 80. -/
theorem add_category_frame_witness :
    addCategory [("Demolition", 80)] "Electrical" = [("Demolition", 80), ("Electrical", 0)] := by
  have h := (add_category_frame [("Demolition", 80)] "Electrical" (by decide)).2.2
    (by decide) (by decide)
  rw [h]
  rfl

/-- Counterexample for C10 as stated: "toString" is not a key of the record,
yet the handler adds nothing — `cp["toString"] !== undefined` is true through
the prototype chain of the plain `categoryProgress` object, so the guard
treats the name as existing and the claimed append never happens. -/
theorem add_category_proto_name_cx :
    ([(("Demolition" : String), (80 : Int))].lookup "toString" = none) ∧
    addCategory [("Demolition", 80)] "toString" = [("Demolition", 80)] ∧
    addCategory [("Demolition", 80)] "toString" ≠ [("Demolition", 80), ("toString", 0)] :=
  ⟨by decide, by decide, by decide⟩

/-- C2: the rendered report contains the materials table (header with columns
Item/Qty/Needed By/Notes and one row per material item in order) exactly when
`materialsRequired` is true and `materialItems` is non-empty; in every other
case the literal `"No"` placeholder block appears in its place inside the
rendered layout. -/
theorem materials_table_condition (e : Entry) :
    (e.materialsRequired = true ∧ e.materialItems ≠ [] →
      matTable e = matHeaderSeg ++ joinAll (e.materialItems.map matRowStr) ++ matFootSeg) ∧
    (¬(e.materialsRequired = true ∧ e.materialItems ≠ []) →
      matTable e = "<div style='font-size:12px;'>No</div>") ∧
    (∃ pre post, renderReportHTML e = pre ++ (matTable e ++ post)) := by
  refine ⟨?_, ?_, ?_⟩
  · rintro ⟨h1, h2⟩
    simp [matTable, h1, h2]
  · intro hneg
    unfold matTable
    rw [if_neg]
    · rfl
    · intro hcond
      apply hneg
      simpa using hcond
  · refine ⟨reportSeg1 ++ ymdString e.date ++ reportSeg2 ++ escapeHTML e.site ++ reportSeg3 ++
      escapeHTML e.area ++ reportSeg4 ++ escapeHTML e.weather ++ reportSeg5 ++
      escapeHTML e.manpower ++ reportSeg6 ++ jsOr (escapeHTML e.obstacles) "-" ++ reportSeg7 ++
      jsOr (escapeHTML e.safetyIncidents) "None" ++ reportSeg8 ++ jsOr (escapeHTML e.notes) "-" ++
      reportSeg9 ++ catRows e.categoryProgress ++ reportSeg10,
      reportSeg11 ++ photosBlock e.photos ++ reportSeg12, ?_⟩
    simp [renderReportHTML, String.append_assoc]

/-- Witness for C2: the sample entry has `materialsRequired = false`, so its
materials block is the "No" placeholder. -/
theorem materials_table_condition_witness :
    matTable sampleEntry = "<div style='font-size:12px;'>No</div>" :=
  (materials_table_condition sampleEntry).2.1 (by decide)

theorem decodeMaterialItem_encode (m : MaterialItem) :
    decodeMaterialItem (encodeMaterialItem m) = some m := by
  cases m
  rfl

theorem decodeList_encode {α : Type} (f : Json → Option α) (g : α → Json)
    (hfg : ∀ x, f (g x) = some x) : ∀ l : List α, decodeList f (l.map g) = some l := by
  intro l
  induction l with
  | nil => rfl
  | cons a t ih => simp [decodeList, hfg, ih]

theorem decodeCPFields_encode :
    ∀ cp : List (String × Int),
      decodeCPFields (cp.map fun kv => (kv.1, Json.num kv.2)) = some cp := by
  intro cp
  induction cp with
  | nil => rfl
  | cons kv t ih => simp [decodeCPFields, Json.asNum, ih]

theorem decodeEntry_encode (e : Entry) : decodeEntry (encodeEntry e) = some e := by
  obtain ⟨i, dt, st, ar, cp, w, ob, no, mp, si, mr, mi, ph⟩ := e
  simp [decodeEntry, encodeEntry, List.lookup, decodeCPFields_encode,
    decodeList_encode decodeMaterialItem encodeMaterialItem decodeMaterialItem_encode,
    decodeList_encode Json.asStr Json.str (fun _ => rfl), Json.asStr, Json.asBool]

/-- C7: JSON round trip — parsing the JSON document produced by `exportJSON`
yields the original entry list, field for field.  (`exportJSONValue` is a
pure function of the list, so the export itself cannot mutate entry state.) -/
theorem exportJSON_round_trip (entries : List Entry) :
    parseEntries (exportJSONValue entries) = some entries := by
  unfold parseEntries exportJSONValue
  exact decodeList_encode decodeEntry encodeEntry decodeEntry_encode entries

/-- C1 (amended): `escapeHTML` maps each of the five HTML-sensitive
characters to its entity, and every free-text field the renderer passes
through it — site, area, weather, manpower, obstacles, safetyIncidents,
notes, category names, and each material item's name, quantity and notes —
contributes no raw structural character (`< > " '`) to the rendered markup:
blanking all of those fields leaves the count of each structural character in
the output unchanged.  (Material `neededBy` values and photo sources are
exempt: the renderer inserts them verbatim.) -/
theorem render_escapes_free_text :
    escapeHTML "&<>\"'" = "&amp;&lt;&gt;&quot;&#39;" ∧
    ∀ (e : Entry) (c : Char), isStructuralChar c →
      countChar c (renderReportHTML e) =
        countChar c (renderReportHTML (blankEscapedFields e)) := by
  constructor
  · decide
  · intro e c hc
    rw [countChar_render c hc e, countChar_render c hc (blankEscapedFields e)]
    rw [blank_date_eq, blank_cp_eq, blank_photos_eq]
    rw [countChar_catRows_blank c hc, countChar_matTable_blank c hc]

/-- Witness for C1: the `<`-count of the sample entry's rendered markup is
unchanged when its escaped free-text fields are blanked. -/
theorem render_escapes_free_text_witness :
    countChar '<' (renderReportHTML sampleEntry) =
      countChar '<' (renderReportHTML (blankEscapedFields sampleEntry)) :=
  render_escapes_free_text.2 sampleEntry '<' (Or.inl rfl)

/-- Counterexample for C1 as stated: a material item's `neededBy` value
`"<b>"` and a photo source `"<i>"` appear verbatim (unescaped) in the
rendered markup, and their escaped forms do not appear — the renderer does
not escape `neededBy` or photo sources. -/
theorem render_neededBy_photo_raw_cx :
    containsStr (renderReportHTML entryRawNeededBy) "<b>" = true ∧
    containsStr (renderReportHTML entryRawNeededBy) "&lt;b&gt;" = false ∧
    containsStr (renderReportHTML entryRawNeededBy) "src='<i>'" = true ∧
    containsStr (renderReportHTML entryRawNeededBy) "src='&lt;i&gt;'" = false :=
  ⟨by decide, by decide, by decide, by decide⟩
